import Mathlib

/-!
Shallow embedding of `src/main.py` of the TD3 training repository.

The file models, over ℚ-valued vectors and oracle-supplied environment /
policy / clock behaviour, the pieces of `main.py` that the claims are
about:

* the training loop of `main` (lines 158-228): per-step action choice,
  `done_bool` truncation handling, replay-buffer stores, gated `train`
  calls, evaluation ticks with CSV rows, and the evaluation-excluding
  wall-clock bookkeeping;
* the prelude of `main` (lines 87-162): directory/result-file handling,
  environment construction and seeding, the policy-variant dispatch, and
  the Python attribute-lookup / unbound-local failure modes;
* `eval_policy` (lines 27-44);
* the constructor-kwargs construction for the three policy variants
  (lines 132-150);
* the argument names defined by `parse_args` (lines 47-77).

Randomness (action-space sampling, Gaussian exploration noise), the
environment's transition behaviour, evaluation returns and wall-clock
durations are modelled as oracle functions packaged in `World`; the
loop code is a deterministic function of those oracles, exactly
mirroring the Python control flow.
-/

set_option maxHeartbeats 1000000

namespace TD3Main

/-- numpy's elementwise `x.clip(lo, hi)`, i.e. `min (max x lo) hi`. -/
def pyclip (lo hi x : ℚ) : ℚ := min (max x lo) hi

/-- `v.clip(-hi, hi)` applied elementwise to a rational vector, as in
`main.py` line 180. -/
def pyclipVec (hi : ℚ) (xs : List ℚ) : List ℚ := xs.map (pyclip (-hi) hi)

/-- Elementwise vector addition (numpy `+` on equal-shaped arrays). -/
def addVec (xs ys : List ℚ) : List ℚ := List.zipWith (· + ·) xs ys

/-- Python's `float(b)` on a boolean. -/
def floatOfBool (b : Bool) : ℚ := if b then 1 else 0

/-- The argument values of `main.py`.  Fields mirror the names defined by
`parse_args` (lines 49-75), plus `file_name`, which `main` reads (line 96)
although `parse_args` never defines it; whether a given attribute is
actually present on the namespace is tracked separately by a key list. -/
structure Args where
  policy : String
  env : String
  seed : Int
  start_timesteps : Nat
  eval_freq : Nat
  max_timesteps : Nat
  expl_noise : ℚ
  batch_size : Nat
  discount : ℚ
  tau : ℚ
  policy_noise : ℚ
  noise_clip : ℚ
  policy_freq : Nat
  save_model : Bool
  load_model : String
  dest_model_path : String
  dest_res_path : String
  file_name : String

/-- Oracles for everything `main` observes from the outside world:
filesystem state at startup, the training environment (`gym.make(args.env)`),
the policy networks' deterministic forward pass, the random draws, the
evaluation results and the wall clock.  Environment responses are indexed
by the global step counter `t` (each oracle value is "what the world
returned at step t"); reset states are indexed by how many resets have
happened. -/
structure World where
  /-- `os.path.exists(args.dest_res_path)` at startup (line 91). -/
  resDirExists : Bool
  /-- `os.path.exists(args.dest_model_path)` at startup (line 93). -/
  modelDirExists : Bool
  /-- `os.path.exists(res_file)` at startup (line 97). -/
  resFileExists : Bool
  /-- `env.observation_space.shape[0]` (line 128). -/
  stateDim : Nat
  /-- `env.action_space.shape[0]` (line 129). -/
  actionDim : Nat
  /-- `env.action_space.high[0]` (line 130); `max_action` in `main`. -/
  actionSpaceHigh0 : ℚ
  /-- `env._max_episode_steps` (line 184). -/
  maxEpisodeSteps : Nat
  /-- State returned by the k-th `env.reset()` of the training env
  (the reset of line 162 is k = 0, the resets of line 203 follow). -/
  initState : Nat → List ℚ
  /-- `next_state` returned by `env.step` at global step t (line 183). -/
  nextState : Nat → List ℚ
  /-- `reward` returned by `env.step` at global step t (line 183). -/
  reward : Nat → ℚ
  /-- `done` returned by `env.step` at global step t (line 183). -/
  done : Nat → Bool
  /-- `env.action_space.sample()` at global step t (line 175). -/
  sampleAction : Nat → List ℚ
  /-- `policy.select_action(state)`: deterministic actor forward pass. -/
  selectAction : List ℚ → List ℚ
  /-- `np.random.normal(mu, sigma, size=action_dim)` drawn at global
  step t (line 179), as a function of the mean and std it is called with. -/
  normal : ℚ → ℚ → Nat → List ℚ
  /-- Result of the initial `eval_policy` call (line 159). -/
  initEval : ℚ
  /-- Result of the `eval_policy` call at the tick of step t (line 212). -/
  evalAt : Nat → ℚ
  /-- Wall-clock duration of the non-evaluation work of step t. -/
  workDur : Nat → ℚ
  /-- Wall-clock duration of the evaluation/logging/checkpoint block of
  the tick at step t (from `start_time_eval` to line 228's reading). -/
  evalDur : Nat → ℚ

/-- One replay-buffer record stored by `replay_buffer.add` (line 187). -/
structure Transition where
  state : List ℚ
  action : List ℚ
  next_state : List ℚ
  reward : ℚ
  done_flag : ℚ
  deriving DecidableEq, Repr

/-- One data row of the result CSV, as written by `write_eval_to_csv`
(lines 17-22): `avg_reward,time,env_steps,grad_steps,seed`. -/
structure Row where
  avg_reward : ℚ
  time : ℚ
  env_steps : Nat
  grad_steps : Nat
  seed : Int
  deriving DecidableEq, Repr

/-- The orchestrator-owned run state of `main`'s training loop, together
with the externally visible artifacts it produces: the stored transitions
(`buffer`), the CSV rows (`rows`), the steps at which `policy.train` /
`policy.select_action` / `policy.save` were called, and the clock
bookkeeping (`now` is the current `perf_counter` reading, with the reading
at line 168 taken as time 0; `start_time` is the variable of the same
name). -/
structure LoopState where
  state : List ℚ
  episode_reward : ℚ
  episode_timesteps : Nat
  episode_num : Nat
  /-- Number of `env.reset()` calls made so far on the training env. -/
  resets : Nat
  grad_steps : Nat
  /-- Global steps at which `policy.train` was called, in order. -/
  trains : List Nat
  /-- Global steps at which `policy.select_action` was called, in order. -/
  selects : List Nat
  /-- Transitions stored into the replay buffer, in insertion order. -/
  buffer : List Transition
  /-- CSV data rows written so far, in order (the initial row included). -/
  rows : List Row
  /-- Ticks at which `policy.save` was called inside the loop. -/
  saves : List Nat
  now : ℚ
  start_time : ℚ
  deriving DecidableEq, Repr

/-- The loop body of `main` (lines 169-228) for global step `t`:
increment the episode step counter; pick a uniformly random action during
warm-up and a noised, clipped policy action afterwards; step the
environment; compute `done_bool` with the truncation override; store the
transition; train when `t >= start_timesteps`; handle the episode
boundary; and on an evaluation tick write a CSV row and shift the timer
origin past the evaluation's duration. -/
def stepBody (args : Args) (w : World) (s : LoopState) (t : Nat) : LoopState :=
  let episode_timesteps := s.episode_timesteps + 1
  let action :=
    if t < args.start_timesteps then w.sampleAction t
    else pyclipVec w.actionSpaceHigh0
      (addVec (w.selectAction s.state)
        (w.normal 0 (w.actionSpaceHigh0 * args.expl_noise) t))
  let done := w.done t
  let done_bool : ℚ :=
    if episode_timesteps < w.maxEpisodeSteps then floatOfBool done else 0
  let grad_steps :=
    if args.start_timesteps ≤ t then s.grad_steps + 1 else s.grad_steps
  let now1 := s.now + w.workDur t
  let tick := (t + 1) % args.eval_freq = 0
  { state := if done then w.initState s.resets else w.nextState t
    episode_reward := if done then 0 else s.episode_reward + w.reward t
    episode_timesteps := if done then 0 else episode_timesteps
    episode_num := if done then s.episode_num + 1 else s.episode_num
    resets := if done then s.resets + 1 else s.resets
    grad_steps := grad_steps
    trains := if args.start_timesteps ≤ t then s.trains ++ [t] else s.trains
    selects := if t < args.start_timesteps then s.selects else s.selects ++ [t]
    buffer := s.buffer ++ [⟨s.state, action, w.nextState t, w.reward t, done_bool⟩]
    rows :=
      if tick then
        s.rows ++ [⟨w.evalAt t, now1 - s.start_time, t + 1, grad_steps, args.seed⟩]
      else s.rows
    saves := if tick then (if args.save_model then s.saves ++ [t] else s.saves) else s.saves
    now := if tick then now1 + w.evalDur t else now1
    start_time :=
      if tick then s.start_time + ((now1 + w.evalDur t) - now1) else s.start_time }

/-- The initial CSV data row written for the untrained policy
(line 160): `write_eval_to_csv(res_file, avg_reward, 0, 0, 0, args.seed)`. -/
def initRow (args : Args) (w : World) : Row :=
  ⟨w.initEval, 0, 0, 0, args.seed⟩

/-- The loop state right before the `for` loop of line 169: the initial
evaluation row has been written (lines 159-160), the env has been reset
once (line 162), the per-episode counters are zero (lines 163-166) and
`start_time` has just been read (line 168, taken as clock origin 0). -/
def initLoopState (args : Args) (w : World) : LoopState :=
  { state := w.initState 0
    episode_reward := 0
    episode_timesteps := 0
    episode_num := 0
    resets := 1
    grad_steps := 0
    trains := []
    selects := []
    buffer := []
    rows := [initRow args w]
    saves := []
    now := 0
    start_time := 0 }

/-- The training loop of `main`: `for t in range(int(args.max_timesteps))`
over `stepBody`, started from `initLoopState`. -/
def runLoop (args : Args) (w : World) : LoopState :=
  (List.range args.max_timesteps).foldl (stepBody args w) (initLoopState args w)

/-! ### Closed forms for the loop state

Each field of the loop state after `k` steps is characterised by a
recurrence defined directly from the oracles, independent of the loop's
state threading.  `runLoop_eq_spec` below proves the loop reaches exactly
these values. -/

/-- Value of `episode_timesteps` at the top of step `t` (before the
increment of line 171): 0 at the start and after each reset, else one
more than at the previous step. -/
def epStepsBefore (done : Nat → Bool) : Nat → Nat
  | 0 => 0
  | t + 1 => if done t then 0 else epStepsBefore done t + 1

/-- Value of `episode_reward` at the top of step `t`. -/
def epRewardBefore (w : World) : Nat → ℚ
  | 0 => 0
  | t + 1 => if w.done t then 0 else epRewardBefore w t + w.reward t

/-- Number of episode terminations among the first `t` steps. -/
def resetsBefore (done : Nat → Bool) (t : Nat) : Nat :=
  (List.range t).countP done

/-- The `state` variable at the top of step `t`: the initial reset state,
and after a `done` step the next reset state, else the env's `next_state`. -/
def stateAt (w : World) : Nat → List ℚ
  | 0 => w.initState 0
  | t + 1 =>
    if w.done t then w.initState (resetsBefore w.done (t + 1)) else w.nextState t

/-- The action executed at global step `t`: a uniformly random sample
during warm-up, afterwards the clipped sum of the actor forward pass on
the current state and a Gaussian draw with mean 0 and std
`max_action * expl_noise` (lines 173-180). -/
def actionAt (args : Args) (w : World) (t : Nat) : List ℚ :=
  if t < args.start_timesteps then w.sampleAction t
  else pyclipVec w.actionSpaceHigh0
    (addVec (w.selectAction (stateAt w t))
      (w.normal 0 (w.actionSpaceHigh0 * args.expl_noise) t))

/-- The `done_bool` stored at global step `t` (line 184): `float(done)`
when the per-episode step count (including the current step) is strictly
below `env._max_episode_steps`, else `0`. -/
def doneBoolAt (w : World) (t : Nat) : ℚ :=
  if epStepsBefore w.done t + 1 < w.maxEpisodeSteps then floatOfBool (w.done t) else 0

/-- The transition stored into the replay buffer at global step `t`. -/
def transitionAt (args : Args) (w : World) (t : Nat) : Transition :=
  ⟨stateAt w t, actionAt args w t, w.nextState t, w.reward t, doneBoolAt w t⟩

/-- Total non-evaluation wall-clock time of the first `n` steps. -/
def sumWork (w : World) (n : Nat) : ℚ :=
  ((List.range n).map w.workDur).sum

/-- Total evaluation-pause wall-clock time over the ticks among the
first `n` steps. -/
def sumEvalDur (args : Args) (w : World) (n : Nat) : ℚ :=
  ((List.range n).filterMap
    (fun t => if (t + 1) % args.eval_freq = 0 then some (w.evalDur t) else none)).sum

/-- The CSV row written at the tick of step `t`: the evaluation result,
the elapsed training time excluding all evaluation pauses, `t + 1` env
steps, `t + 1 - start_timesteps` gradient steps, and the seed. -/
def tickRowAt (args : Args) (w : World) (t : Nat) : Row :=
  ⟨w.evalAt t, sumWork w (t + 1), t + 1, (t + 1) - args.start_timesteps, args.seed⟩

/-- All CSV data rows present after `k` loop steps: the initial row, then
one row per tick, a tick happening at step `t` iff `(t+1) % eval_freq = 0`. -/
def rowsAfter (args : Args) (w : World) (k : Nat) : List Row :=
  initRow args w ::
    (List.range k).filterMap
      (fun t => if (t + 1) % args.eval_freq = 0 then some (tickRowAt args w t) else none)

/-- Closed form of the whole loop state after `k` steps. -/
def specState (args : Args) (w : World) (k : Nat) : LoopState :=
  { state := stateAt w k
    episode_reward := epRewardBefore w k
    episode_timesteps := epStepsBefore w.done k
    episode_num := resetsBefore w.done k
    resets := resetsBefore w.done k + 1
    grad_steps := k - args.start_timesteps
    trains := (List.range k).filter (fun t => decide (args.start_timesteps ≤ t))
    selects := (List.range k).filter (fun t => decide (args.start_timesteps ≤ t))
    buffer := (List.range k).map (transitionAt args w)
    rows := rowsAfter args w k
    saves :=
      if args.save_model then
        (List.range k).filter (fun t => decide ((t + 1) % args.eval_freq = 0))
      else []
    now := sumWork w k + sumEvalDur args w k
    start_time := sumEvalDur args w k }

/-! ### The loop reaches the closed forms -/

theorem resetsBefore_succ (done : Nat → Bool) (k : Nat) :
    resetsBefore done (k + 1) = resetsBefore done k + (if done k then 1 else 0) := by
  cases h : done k <;>
    simp [resetsBefore, List.range_succ, List.countP_append, List.countP_cons, h]

theorem sumWork_succ (w : World) (k : Nat) :
    sumWork w (k + 1) = sumWork w k + w.workDur k := by
  simp [sumWork, List.range_succ]

theorem sumEvalDur_succ (args : Args) (w : World) (k : Nat) :
    sumEvalDur args w (k + 1) =
      sumEvalDur args w k + (if (k + 1) % args.eval_freq = 0 then w.evalDur k else 0) := by
  by_cases h : (k + 1) % args.eval_freq = 0 <;>
    simp [sumEvalDur, List.range_succ, List.filterMap_append, h]

theorem rowsAfter_succ (args : Args) (w : World) (k : Nat) :
    rowsAfter args w (k + 1) =
      rowsAfter args w k ++
        (if (k + 1) % args.eval_freq = 0 then [tickRowAt args w k] else []) := by
  by_cases h : (k + 1) % args.eval_freq = 0 <;>
    simp [rowsAfter, List.range_succ, List.filterMap_append, h]

/-- One loop-body application starting from the closed form of step `k`
lands exactly on the closed form of step `k + 1`. -/
theorem stepBody_spec (args : Args) (w : World) (k : Nat) :
    stepBody args w (specState args w k) k = specState args w (k + 1) := by
  simp only [stepBody, specState, LoopState.mk.injEq]
  refine ⟨?_, ?_, ?_, ?_, ?_, ?_, ?_, ?_, ?_, ?_, ?_, ?_, ?_⟩
  · cases h : w.done k <;> simp [stateAt, resetsBefore_succ, h]
  · cases h : w.done k <;> simp [epRewardBefore, h]
  · cases h : w.done k <;> simp [epStepsBefore, h]
  · cases h : w.done k <;> simp [resetsBefore_succ, h]
  · cases h : w.done k <;> simp [resetsBefore_succ, h]
  · split <;> omega
  · by_cases h : args.start_timesteps ≤ k <;>
      simp [List.range_succ, List.filter_append, h]
  · by_cases h : k < args.start_timesteps
    · simp [List.range_succ, List.filter_append, h, Nat.not_le.mpr h]
    · simp [List.range_succ, List.filter_append, h, Nat.not_lt.mp h]
  · simp [List.range_succ, transitionAt, actionAt, doneBoolAt]
  · by_cases h : (k + 1) % args.eval_freq = 0
    · have hg : (if args.start_timesteps ≤ k then k - args.start_timesteps + 1
          else k - args.start_timesteps) = (k + 1) - args.start_timesteps := by
        split <;> omega
      have ht : sumWork w k + sumEvalDur args w k + w.workDur k - sumEvalDur args w k =
          sumWork w (k + 1) := by
        rw [sumWork_succ]; ring
      simp [rowsAfter_succ, h, tickRowAt, hg, ht]
    · simp [rowsAfter_succ, h]
  · by_cases hs : args.save_model <;> by_cases h : (k + 1) % args.eval_freq = 0 <;>
      simp [List.range_succ, List.filter_append, h, hs]
  · by_cases h : (k + 1) % args.eval_freq = 0 <;>
      rw [sumWork_succ, sumEvalDur_succ] <;> simp [h] <;> ring
  · by_cases h : (k + 1) % args.eval_freq = 0 <;>
      rw [sumEvalDur_succ] <;> simp [h]

/-- After `k` loop iterations the loop state is exactly `specState k`. -/
theorem foldl_stepBody_spec (args : Args) (w : World) (k : Nat) :
    (List.range k).foldl (stepBody args w) (initLoopState args w) = specState args w k := by
  induction k with
  | zero =>
    simp [initLoopState, specState, stateAt, epRewardBefore, epStepsBefore, resetsBefore,
      rowsAfter, sumWork, sumEvalDur]
  | succ k ih =>
    rw [List.range_succ, List.foldl_append]
    simp only [List.foldl_cons, List.foldl_nil]
    rw [ih, stepBody_spec]

/-- The final loop state of `main`'s training loop, in closed form. -/
theorem runLoop_spec (args : Args) (w : World) :
    runLoop args w = specState args w args.max_timesteps :=
  foldl_stepBody_spec args w args.max_timesteps

/-! ### Policy-variant dispatch (lines 132-150) -/

/-- The keyword arguments handed to the policy constructor.  The base
dict of lines 132-138 always carries the first five entries; the three
optional entries are added only in the `TD3` branch (lines 143-145). -/
structure PolicyKwargs where
  state_dim : Nat
  action_dim : Nat
  max_action : ℚ
  discount : ℚ
  tau : ℚ
  policy_noise : Option ℚ
  noise_clip : Option ℚ
  policy_freq : Option Nat
  deriving DecidableEq, Repr

/-- The `kwargs` construction and variant dispatch of lines 132-150:
for `"TD3"` the smoothing-noise parameters are scaled by `max_action`
and `policy_freq` is passed through; for `"OurDDPG"` and `"DDPG"` only
the base kwargs are passed; any other selector assigns no policy at all
(`none`: the Python `if/elif/elif` has no `else` branch). -/
def buildPolicyKwargs (args : Args) (state_dim action_dim : Nat) (max_action : ℚ) :
    Option PolicyKwargs :=
  let base : PolicyKwargs :=
    { state_dim := state_dim, action_dim := action_dim, max_action := max_action,
      discount := args.discount, tau := args.tau,
      policy_noise := none, noise_clip := none, policy_freq := none }
  if args.policy = "TD3" then
    some { base with
      policy_noise := some (args.policy_noise * max_action),
      noise_clip := some (args.noise_clip * max_action),
      policy_freq := some args.policy_freq }
  else if args.policy = "OurDDPG" then some base
  else if args.policy = "DDPG" then some base
  else none

/-! ### The prelude of `main` (lines 87-169) as an event trace

`main` is modelled as a function from the attribute-key list of the
argument dictionary, the attribute values, and the world oracles, to the
list of externally visible events it performs, together with either the
final loop state or the Python exception that aborted the run.
Attribute lookups on the `argparse.Namespace` fail with `AttributeError`
when the key is absent; reading the never-assigned local `policy` after
an unrecognized selector fails with `UnboundLocalError`.  Attribute
reads that happen only inside the loop body are modelled through the
`Args` record values without a presence check, as no claim exercises a
run that reaches the loop with one of those keys missing. -/

/-- The two Python exception kinds `main` can raise in the modelled
prefix: a failed attribute lookup, and a read of a never-assigned local. -/
inductive MainError where
  | attributeError (attr : String)
  | unboundLocal (name : String)
  deriving DecidableEq, Repr

/-- Externally visible actions of `main`, in program order. -/
inductive Ev where
  | mkResDir
  | mkModelDir
  | writeHeader
  | envCreate
  | envSeed
  | policyInit
  | policyLoad
  | bufferCreate
  | evalInit
  | writeInitRow
  | envReset
  | envStep (t : Nat)
  | trainCall (t : Nat)
  | saveFinal
  deriving DecidableEq, Repr

/-- First key of `req` that is absent from `keys` (the first attribute
lookup that would raise), if any. -/
def firstMissing (keys req : List String) : Option String :=
  req.find? (fun k => !(keys.contains k))

/-- The argument names defined by `parse_args` (lines 49-75), in order. -/
def parse_args_keys : List String :=
  ["policy", "env", "seed", "start_timesteps", "eval_freq", "max_timesteps",
   "expl_noise", "batch_size", "discount", "tau", "policy_noise", "noise_clip",
   "policy_freq", "save_model", "load_model", "dest_model_path", "dest_res_path"]

/-- `parse_args_keys` plus the `file_name` key `main` additionally needs;
the key set of a direct keyword call of `main` that reaches the loop. -/
def all_keys : List String := parse_args_keys ++ ["file_name"]

/-- Attributes read by the hyperparameter header block (lines 101-113). -/
def header_keys : List String :=
  ["env", "seed", "eval_freq", "start_timesteps", "max_timesteps", "batch_size",
   "discount", "tau", "policy_noise", "noise_clip", "policy_freq"]

/-- The per-step events of the training loop: one environment step per
`t`, plus one `policy.train` call exactly when `t ≥ start_timesteps`. -/
def loopEvents (args : Args) : List Ev :=
  ((List.range args.max_timesteps).map (fun t =>
    Ev.envStep t :: (if args.start_timesteps ≤ t then [Ev.trainCall t] else []))).flatten

/-- Lines 156-245 of `main`: buffer construction, the initial evaluation
(where an unrecognized selector's unassigned `policy` local is first
read when no model load was requested), the initial CSV row, the first
reset, the training loop, and the optional final checkpoint. -/
def mainFinal (keys : List String) (args : Args) (w : World)
    (policyOpt : Option PolicyKwargs) (evs : List Ev) :
    List Ev × Except MainError LoopState :=
  let evs := evs ++ [Ev.bufferCreate]
  match policyOpt with
  | none => (evs, .error (.unboundLocal "policy"))
  | some _ =>
    let evs := evs ++ [Ev.evalInit, Ev.writeInitRow, Ev.envReset]
    if "max_timesteps" ∉ keys then (evs, .error (.attributeError "max_timesteps"))
    else
      let evs := evs ++ loopEvents args ++ (if args.save_model then [Ev.saveFinal] else [])
      (evs, .ok (runLoop args w))

/-- Lines 152-154 of `main`: the optional model load, which reads the
`policy` local (raising `UnboundLocalError` for an unrecognized
selector) before `policy.load` runs. -/
def mainLoad (keys : List String) (args : Args) (w : World)
    (policyOpt : Option PolicyKwargs) (evs : List Ev) :
    List Ev × Except MainError LoopState :=
  if "load_model" ∉ keys then (evs, .error (.attributeError "load_model"))
  else if args.load_model = "" then mainFinal keys args w policyOpt evs
  else
    match policyOpt with
    | none => (evs, .error (.unboundLocal "policy"))
    | some _ => mainFinal keys args w policyOpt (evs ++ [Ev.policyLoad])

/-- Lines 119-154 of `main`: environment construction and seeding, the
kwargs construction, the policy-variant dispatch, then `mainLoad`. -/
def mainTail (keys : List String) (args : Args) (w : World) (evs : List Ev) :
    List Ev × Except MainError LoopState :=
  let evs := evs ++ [Ev.envCreate, Ev.envSeed]
  match firstMissing keys ["discount", "tau", "policy"] with
  | some k => (evs, .error (.attributeError k))
  | none =>
    match (if args.policy = "TD3" then
        firstMissing keys ["policy_noise", "noise_clip", "policy_freq"] else none) with
    | some k => (evs, .error (.attributeError k))
    | none =>
      let policyOpt := buildPolicyKwargs args w.stateDim w.actionDim w.actionSpaceHigh0
      let evs := evs ++ (if policyOpt.isSome then [Ev.policyInit] else [])
      mainLoad keys args w policyOpt evs

/-- `main(dargs)` of `main.py`: the banner print (line 88, reading
`policy`, `env` and `seed`), the output-directory handling (lines
91-94), the result-file path construction (line 96, the first read of
`args.file_name`), the existence-guarded header write (lines 97-116),
then `mainTail`. -/
def main (keys : List String) (args : Args) (w : World) :
    List Ev × Except MainError LoopState :=
  match firstMissing keys ["policy", "env", "seed", "dest_res_path"] with
  | some k => ([], .error (.attributeError k))
  | none =>
    let evs := if w.resDirExists then [] else [Ev.mkResDir]
    if "save_model" ∉ keys then (evs, .error (.attributeError "save_model"))
    else if args.save_model ∧ "dest_model_path" ∉ keys then
      (evs, .error (.attributeError "dest_model_path"))
    else
      let evs := evs ++ (if args.save_model ∧ ¬w.modelDirExists then [Ev.mkModelDir] else [])
      if "file_name" ∉ keys then (evs, .error (.attributeError "file_name"))
      else if w.resFileExists then
        mainTail keys args w evs
      else
        match firstMissing keys header_keys with
        | some k => (evs, .error (.attributeError k))
        | none => mainTail keys args w (evs ++ [Ev.writeHeader])

/-! ### `eval_policy` (lines 25-44) -/

/-- The environment interface `eval_policy` uses: `reset` (indexed by
how many resets have happened on this instance) and `step`, returning
`(next_state, reward, done)`. -/
structure EvalEnv (S : Type) where
  reset : Nat → S
  step : S → List ℚ → S × ℚ × Bool

/-- The `while not done` rollout of lines 34-37, with an explicit fuel
bound: the action is always `policy.select_action(state)` with no noise,
and the reward is accumulated into the running `avg_reward`.  Returns
the accumulator and whether the episode completed within the fuel. -/
def evalEpisode {S : Type} (env : EvalEnv S) (selectAction : S → List ℚ) :
    Nat → S → ℚ → ℚ × Bool
  | 0, _, acc => (acc, false)
  | fuel + 1, st, acc =>
    let out := env.step st (selectAction st)
    if out.2.2 then (acc + out.2.1, true)
    else evalEpisode env selectAction fuel out.1 (acc + out.2.1)

/-- The default of `eval_policy`'s `eval_episodes` parameter (line 27). -/
def eval_episodes_default : Nat := 10

/-- `eval_policy(policy, env_name, seed, eval_episodes)`: build a fresh
environment (`gym_make` closes over `env_name`), seed it with
`seed + 100`, run `eval_episodes` rollouts accumulating all rewards into
one running sum, and divide by `eval_episodes`. -/
def eval_policy {S : Type} (gym_make : Int → EvalEnv S) (selectAction : S → List ℚ)
    (seed : Int) (fuel : Nat) (eval_episodes : Nat) : ℚ :=
  let eval_env := gym_make (seed + 100)
  let avg_reward :=
    (List.range eval_episodes).foldl
      (fun acc k => (evalEpisode eval_env selectAction fuel (eval_env.reset k) acc).1) 0
  avg_reward / eval_episodes

/-- The reward sum of the `k`-th evaluation episode on its own, started
from a zero accumulator. -/
def episodeReturn {S : Type} (env : EvalEnv S) (selectAction : S → List ℚ)
    (fuel : Nat) (k : Nat) : ℚ :=
  (evalEpisode env selectAction fuel (env.reset k) 0).1

theorem evalEpisode_acc {S : Type} (env : EvalEnv S) (sel : S → List ℚ) :
    ∀ (fuel : Nat) (st : S) (acc : ℚ),
    (evalEpisode env sel fuel st acc).1 = acc + (evalEpisode env sel fuel st 0).1 := by
  intro fuel
  induction fuel with
  | zero => intro st acc; simp [evalEpisode]
  | succ fuel ih =>
    intro st acc
    simp only [evalEpisode]
    by_cases h : (env.step st (sel st)).2.2
    · simp [h]
    · simp [h]
      rw [ih, ih _ ((env.step st (sel st)).2.1)]
      ring

theorem eval_policy_fold {S : Type} (env : EvalEnv S) (sel : S → List ℚ)
    (fuel : Nat) : ∀ (n : Nat),
    (List.range n).foldl
        (fun acc k => (evalEpisode env sel fuel (env.reset k) acc).1) 0 =
      ((List.range n).map (episodeReturn env sel fuel)).sum := by
  intro n
  induction n with
  | zero => simp
  | succ n ih =>
    rw [List.range_succ, List.foldl_append, List.map_append, List.sum_append]
    simp only [List.foldl_cons, List.foldl_nil, List.map_cons, List.map_nil,
      List.sum_cons, List.sum_nil]
    rw [ih, evalEpisode_acc]
    simp [episodeReturn]

theorem length_filterMap_ite {β : Type} (p : Nat → Prop) [DecidablePred p]
    (f : Nat → β) (l : List Nat) :
    (l.filterMap (fun t => if p t then some (f t) else none)).length
      = l.countP (fun t => decide (p t)) := by
  induction l with
  | nil => rfl
  | cons a l ih =>
    by_cases h : p a <;> simp [List.filterMap_cons, List.countP_cons, h, ih]

/-! ### Concrete instances used by witnesses and counterexamples -/

/-- A concrete argument record: `TD3` policy, two loop steps, an
evaluation tick every step, no warm-up, no model load/save. -/
def argsSmall : Args :=
  { policy := "TD3", env := "HalfCheetah-v2", seed := 0, start_timesteps := 0,
    eval_freq := 1, max_timesteps := 2, expl_noise := 1/10, batch_size := 256,
    discount := 99/100, tau := 1/200, policy_noise := 1/5, noise_clip := 1/2,
    policy_freq := 2, save_model := false, load_model := "",
    dest_model_path := "./models", dest_res_path := "./results", file_name := "run0" }

/-- The end-to-end scenario of the spec: `max_timesteps = 1000`,
`start_timesteps = 100`, `eval_freq = 500`. -/
def argsScenario : Args :=
  { argsSmall with start_timesteps := 100, eval_freq := 500, max_timesteps := 1000 }

/-- Two loop steps with a one-step warm-up phase. -/
def argsMid : Args := { argsSmall with start_timesteps := 1 }

/-- An unrecognized policy-variant selector. -/
def argsSAC : Args := { argsSmall with policy := "SAC" }

/-- Another unrecognized policy-variant selector. -/
def argsPPO : Args := { argsSmall with policy := "PPO" }

/-- A concrete world: both output directories and no result file yet,
an episode cap of 1000, and simple deterministic oracles. -/
def w1 : World :=
  { resDirExists := true, modelDirExists := true, resFileExists := false,
    stateDim := 17, actionDim := 6, actionSpaceHigh0 := 1, maxEpisodeSteps := 1000,
    initState := fun _ => [0], nextState := fun t => [(t : ℚ)],
    reward := fun t => (t : ℚ), done := fun _ => false,
    sampleAction := fun t => [(t : ℚ)], selectAction := fun s => s,
    normal := fun _ sigma t => [sigma + t], initEval := 0, evalAt := fun t => (t : ℚ),
    workDur := fun _ => 1, evalDur := fun _ => 1 }

/-- `w1`, but the result CSV file already exists at startup. -/
def wExist : World := { w1 with resFileExists := true }

/-- `w1`, but with an episode cap of 2 steps and an environment that
returns `done = True` exactly at global step 1, i.e. exactly when the
episode reaches the cap. -/
def wCap : World := { w1 with maxEpisodeSteps := 2, done := fun t => t == 1 }

/-! ### Claim theorems -/

/-- Claim C2: for every environment step, the stored `done_bool` equals
`float(done)` when the per-episode step count is strictly below
`env._max_episode_steps`, and equals `0.0` whenever the per-episode step
count has reached the cap — even if the environment simultaneously
returns `done = True` — so a transition at the horizon cap is never
stored as a true terminal. -/
theorem done_bool_truncation (args : Args) (w : World) (t : Nat)
    (ht : t < args.max_timesteps) :
    ((runLoop args w).buffer[t]?).map Transition.done_flag = some (doneBoolAt w t)
    ∧ (epStepsBefore w.done t + 1 < w.maxEpisodeSteps →
        doneBoolAt w t = floatOfBool (w.done t))
    ∧ (w.maxEpisodeSteps ≤ epStepsBefore w.done t + 1 → doneBoolAt w t = 0) := by
  refine ⟨?_, ?_, ?_⟩
  · rw [runLoop_spec]
    simp [specState, List.getElem?_map, List.getElem?_range, ht, transitionAt]
  · intro h; simp [doneBoolAt, h]
  · intro h; simp [doneBoolAt, Nat.not_lt.mpr h]

/-- Witness for C2 at a concrete input: the episode reaches the cap of 2
steps at global step 1 while the environment returns `done = True` there,
and the stored `done_bool` is `0`. -/
theorem done_bool_truncation_witness :
    wCap.done 1 = true
    ∧ epStepsBefore wCap.done 1 + 1 = wCap.maxEpisodeSteps
    ∧ ((runLoop argsSmall wCap).buffer[1]?).map Transition.done_flag = some 0 := by
  have h := done_bool_truncation argsSmall wCap 1 (by decide)
  exact ⟨rfl, by decide, h.1.trans (congrArg some (h.2.2 (by decide)))⟩

/-- Claim C6: at every environment step, during warm-up (`t <
start_timesteps`) the executed action is the action-space sample with no
policy forward pass, and afterwards it is the elementwise clipped sum of
`policy.select_action(state)` and the Gaussian draw with mean 0 and std
`max_action * expl_noise`; `select_action` is called exactly at the
steps `t ≥ start_timesteps`. -/
theorem action_selection (args : Args) (w : World) (t : Nat)
    (ht : t < args.max_timesteps) :
    ((runLoop args w).buffer[t]?).map Transition.action = some (actionAt args w t)
    ∧ (t < args.start_timesteps → actionAt args w t = w.sampleAction t)
    ∧ (args.start_timesteps ≤ t → actionAt args w t =
        pyclipVec w.actionSpaceHigh0
          (addVec (w.selectAction (stateAt w t))
            (w.normal 0 (w.actionSpaceHigh0 * args.expl_noise) t)))
    ∧ (runLoop args w).selects =
        (List.range args.max_timesteps).filter
          (fun j => decide (args.start_timesteps ≤ j)) := by
  refine ⟨?_, ?_, ?_, ?_⟩
  · rw [runLoop_spec]
    simp [specState, List.getElem?_map, List.getElem?_range, ht, transitionAt]
  · intro h; simp [actionAt, h]
  · intro h; simp [actionAt, Nat.not_lt.mpr h]
  · rw [runLoop_spec]; rfl

/-- Witness for C6 at a concrete input: with a one-step warm-up, step 0
executes the random sample and step 1 executes the noised, clipped
policy action. -/
theorem action_selection_witness :
    ((runLoop argsMid w1).buffer[0]?).map Transition.action = some (w1.sampleAction 0)
    ∧ ((runLoop argsMid w1).buffer[1]?).map Transition.action =
        some (pyclipVec w1.actionSpaceHigh0
          (addVec (w1.selectAction (stateAt w1 1))
            (w1.normal 0 (w1.actionSpaceHigh0 * argsMid.expl_noise) 1))) := by
  have h0 := action_selection argsMid w1 0 (by decide)
  have h1 := action_selection argsMid w1 1 (by decide)
  exact ⟨h0.1.trans (congrArg some (h0.2.1 (by decide))),
    h1.1.trans (congrArg some (h1.2.2.1 (by decide)))⟩

/-- Claim C3: for `0 ≤ start_timesteps ≤ max_timesteps`, `policy.train`
is called at no step `t < start_timesteps` and exactly once at every
step `start_timesteps ≤ t < max_timesteps`; the gradient-step counter
after the loop is `max_timesteps - start_timesteps`, and when
`eval_freq` divides `max_timesteps` the final evaluation row records
that same count. -/
theorem train_schedule (args : Args) (w : World)
    (h : args.start_timesteps ≤ args.max_timesteps) :
    (runLoop args w).trains =
      (List.range args.max_timesteps).filter
        (fun t => decide (args.start_timesteps ≤ t))
    ∧ (∀ t, t < args.start_timesteps → t ∉ (runLoop args w).trains)
    ∧ (runLoop args w).grad_steps = args.max_timesteps - args.start_timesteps
    ∧ (0 < args.eval_freq → args.eval_freq ∣ args.max_timesteps →
        ((runLoop args w).rows.getLast?).map Row.grad_steps =
          some (args.max_timesteps - args.start_timesteps)) := by
  refine ⟨?_, ?_, ?_, ?_⟩
  · rw [runLoop_spec]; rfl
  · intro t hlt hmem
    rw [runLoop_spec] at hmem
    simp only [specState, List.mem_filter, decide_eq_true_eq] at hmem
    omega
  · rw [runLoop_spec]; rfl
  · intro hf hdvd
    rcases Nat.eq_zero_or_pos args.max_timesteps with hm | hm
    · rw [runLoop_spec]
      simp [specState, rowsAfter, hm, initRow]
    · obtain ⟨m, hm2⟩ : ∃ m, args.max_timesteps = m + 1 :=
        ⟨args.max_timesteps - 1, by omega⟩
      have htick : (m + 1) % args.eval_freq = 0 := by
        rw [← hm2]
        exact Nat.dvd_iff_mod_eq_zero.mp hdvd
      rw [runLoop_spec]
      simp only [specState]
      rw [hm2, rowsAfter_succ, if_pos htick, List.getLast?_concat _]
      simp [tickRowAt, ← hm2]

/-- Witness for C3 at the spec's end-to-end scenario
(`max_timesteps = 1000`, `start_timesteps = 100`, `eval_freq = 500`):
the loop makes `900` gradient steps and the final row records `900`. -/
theorem train_schedule_witness :
    (runLoop argsScenario w1).grad_steps = 900
    ∧ ((runLoop argsScenario w1).rows.getLast?).map Row.grad_steps = some 900 := by
  have h := train_schedule argsScenario w1 (by decide)
  exact ⟨h.2.2.1, h.2.2.2 (by decide) (by decide)⟩

set_option maxRecDepth 100000 in
/-- Claim C4: the result log holds exactly one initial row
`(initEval, 0, 0, 0, seed)` followed by one row per evaluation tick, a
tick occurring at step `t` iff `(t + 1) % eval_freq = 0`, the tick row
recording the evaluation result, the elapsed non-evaluation time, `t+1`
environment steps, `t + 1 - start_timesteps` gradient steps and the
seed; with `max_timesteps = 1000` and `eval_freq = 500` the log holds
exactly 3 data rows. -/
theorem result_rows (args : Args) (w : World) :
    (runLoop args w).rows =
      ⟨w.initEval, 0, 0, 0, args.seed⟩ ::
        (List.range args.max_timesteps).filterMap (fun t =>
          if (t + 1) % args.eval_freq = 0 then
            some ⟨w.evalAt t, sumWork w (t + 1), t + 1,
              (t + 1) - args.start_timesteps, args.seed⟩
          else none)
    ∧ ((args.max_timesteps = 1000 ∧ args.eval_freq = 500) →
        (runLoop args w).rows.length = 3) := by
  constructor
  · rw [runLoop_spec]
    rfl
  · rintro ⟨hm, hf⟩
    rw [runLoop_spec]
    simp only [specState, rowsAfter, hm, hf, List.length_cons]
    rw [length_filterMap_ite]
    decide

/-- Witness for C4 at the spec's scenario: exactly 3 data rows. -/
theorem result_rows_witness : (runLoop argsScenario w1).rows.length = 3 :=
  (result_rows argsScenario w1).2 ⟨rfl, rfl⟩

/-- Claim C8: the elapsed time written at the tick of step `t` is the
total non-evaluation work time of steps `0..t` — the cumulative duration
of all earlier evaluation pauses is excluded — and after the loop the
timer origin has been advanced by the total duration of all evaluation
pauses. -/
theorem eval_time_excluded (args : Args) (w : World) (t : Nat)
    (ht : t < args.max_timesteps) (htick : (t + 1) % args.eval_freq = 0) :
    tickRowAt args w t ∈ (runLoop args w).rows
    ∧ (tickRowAt args w t).time = sumWork w (t + 1)
    ∧ (tickRowAt args w t).env_steps = t + 1
    ∧ (runLoop args w).start_time = sumEvalDur args w args.max_timesteps := by
  refine ⟨?_, rfl, rfl, ?_⟩
  · rw [runLoop_spec]
    simp only [specState, rowsAfter]
    exact List.mem_cons_of_mem _
      (List.mem_filterMap.mpr ⟨t, List.mem_range.mpr ht, by rw [if_pos htick]⟩)
  · rw [runLoop_spec]; rfl

/-- Witness for C8 at a concrete input: the tick row of step 0 is in
the log and the final timer origin is the total evaluation-pause time. -/
theorem eval_time_excluded_witness :
    tickRowAt argsSmall w1 0 ∈ (runLoop argsSmall w1).rows
    ∧ (runLoop argsSmall w1).start_time = sumEvalDur argsSmall w1 2 := by
  have h := eval_time_excluded argsSmall w1 0 (by decide) (by decide)
  exact ⟨h.1, h.2.2.2⟩

/-- Claim C7: `eval_policy` builds a fresh environment, seeds it with
`seed + 100`, runs `eval_episodes` complete episodes (each within the
fuel bound) using only `policy.select_action` with no noise, and returns
the arithmetic mean over episodes of the per-episode reward sums. -/
theorem eval_policy_mean {S : Type} (gym_make : Int → EvalEnv S)
    (selectAction : S → List ℚ) (seed : Int) (fuel n : Nat)
    (hcomplete : ∀ k, k < n →
      (evalEpisode (gym_make (seed + 100)) selectAction fuel
        ((gym_make (seed + 100)).reset k) 0).2 = true) :
    eval_policy gym_make selectAction seed fuel n =
      ((List.range n).map
        (episodeReturn (gym_make (seed + 100)) selectAction fuel)).sum / (n : ℚ) := by
  show (List.range n).foldl
      (fun acc k => (evalEpisode (gym_make (seed + 100)) selectAction fuel
        ((gym_make (seed + 100)).reset k) acc).1) 0 / (n : ℚ) = _
  rw [eval_policy_fold]

/-- A concrete deterministic evaluation environment: state counts the
steps taken this episode, each step rewards `state + 1`, and an episode
completes after two steps. -/
def evalEnvW : EvalEnv Nat :=
  { reset := fun _ => 0,
    step := fun s _ => (s + 1, (s : ℚ) + 1, decide (2 ≤ s + 1)) }

/-- Witness for C7 at a concrete input: two episodes, each terminating
within the fuel bound, with the mean of the per-episode sums. -/
theorem eval_policy_mean_witness :
    eval_policy (fun _ => evalEnvW) (fun _ => [0]) 7 5 2 =
      ((List.range 2).map (episodeReturn evalEnvW (fun _ => [0]) 5)).sum / (2 : ℚ) :=
  eval_policy_mean (fun _ => evalEnvW) (fun _ => [0]) 7 5 2 (by decide)

/-- Claim C10: for the `TD3` selector the constructor receives
`policy_noise` and `noise_clip` scaled by `max_action` and `policy_freq`
unchanged; for `OurDDPG` and `DDPG` none of the three is passed. -/
theorem kwargs_dispatch (args : Args) (sd ad : Nat) (ma : ℚ) :
    (args.policy = "TD3" →
      ((buildPolicyKwargs args sd ad ma).map PolicyKwargs.policy_noise =
          some (some (args.policy_noise * ma))
        ∧ (buildPolicyKwargs args sd ad ma).map PolicyKwargs.noise_clip =
          some (some (args.noise_clip * ma))
        ∧ (buildPolicyKwargs args sd ad ma).map PolicyKwargs.policy_freq =
          some (some args.policy_freq)))
    ∧ ((args.policy = "OurDDPG" ∨ args.policy = "DDPG") →
      ((buildPolicyKwargs args sd ad ma).map PolicyKwargs.policy_noise = some none
        ∧ (buildPolicyKwargs args sd ad ma).map PolicyKwargs.noise_clip = some none
        ∧ (buildPolicyKwargs args sd ad ma).map PolicyKwargs.policy_freq = some none)) := by
  constructor
  · intro h
    simp [buildPolicyKwargs, h]
  · rintro (h | h) <;> simp [buildPolicyKwargs, h]

/-- Witness for C10 at concrete inputs: a `TD3` record gets the scaled
noise parameters, a `DDPG` record gets none of the three. -/
theorem kwargs_dispatch_witness :
    (buildPolicyKwargs argsSmall 3 1 2).map PolicyKwargs.policy_noise =
        some (some (argsSmall.policy_noise * 2))
    ∧ (buildPolicyKwargs { argsSmall with policy := "DDPG" } 3 1 2).map
        PolicyKwargs.policy_noise = some none :=
  ⟨((kwargs_dispatch argsSmall 3 1 2).1 rfl).1,
    ((kwargs_dispatch { argsSmall with policy := "DDPG" } 3 1 2).2 (Or.inr rfl)).1⟩

theorem mem_loopEvents (args : Args) (e : Ev) :
    e ∈ loopEvents args ↔ ∃ t, t < args.max_timesteps ∧
      (e = Ev.envStep t ∨ (args.start_timesteps ≤ t ∧ e = Ev.trainCall t)) := by
  constructor
  · intro hm
    simp only [loopEvents, List.mem_flatten, List.mem_map] at hm
    obtain ⟨l, ⟨t, ht, rfl⟩, hm⟩ := hm
    refine ⟨t, List.mem_range.mp ht, ?_⟩
    rcases List.mem_cons.mp hm with h | h
    · exact Or.inl h
    · by_cases hs : args.start_timesteps ≤ t
      · rw [if_pos hs] at h
        exact Or.inr ⟨hs, List.mem_singleton.mp h⟩
      · rw [if_neg hs] at h
        exact absurd h (List.not_mem_nil _)
  · rintro ⟨t, ht, rfl | ⟨hs, rfl⟩⟩
    · simp only [loopEvents, List.mem_flatten, List.mem_map]
      exact ⟨_, ⟨t, List.mem_range.mpr ht, rfl⟩, List.mem_cons_self _ _⟩
    · simp only [loopEvents, List.mem_flatten, List.mem_map]
      exact ⟨_, ⟨t, List.mem_range.mpr ht, rfl⟩,
        List.mem_cons_of_mem _ (by rw [if_pos hs]; exact List.mem_singleton_self _)⟩

theorem writeHeader_not_mem_loopEvents (args : Args) :
    Ev.writeHeader ∉ loopEvents args := by
  rw [mem_loopEvents]
  rintro ⟨t, -, h | ⟨-, h⟩⟩ <;> simp at h

/-- Claim C9 (confirmed): `parse_args` defines no `file_name` argument,
and for every argument dictionary with exactly the `parse_args` keys,
`main` fails with an attribute-lookup error on `file_name` while
building the result-file path, before creating the environment, before
any reset and before any training call. -/
theorem missing_file_name (args : Args) (w : World) :
    "file_name" ∉ parse_args_keys
    ∧ (main parse_args_keys args w).2 = .error (.attributeError "file_name")
    ∧ Ev.envCreate ∉ (main parse_args_keys args w).1
    ∧ (∀ t, Ev.trainCall t ∉ (main parse_args_keys args w).1)
    ∧ Ev.envReset ∉ (main parse_args_keys args w).1 := by
  have e1 : firstMissing parse_args_keys ["policy", "env", "seed", "dest_res_path"]
      = none := rfl
  by_cases c1 : w.resDirExists <;> by_cases c2 : args.save_model <;>
    by_cases c3 : w.modelDirExists <;>
      simp +decide [main, e1, c1, c2, c3]

/-- Witness for C9 at a concrete input: a `parse_args`-shaped dictionary
makes `main` fail on `file_name` before the environment is created. -/
theorem missing_file_name_witness :
    (main parse_args_keys argsSmall w1).2 = .error (.attributeError "file_name")
    ∧ Ev.envCreate ∉ (main parse_args_keys argsSmall w1).1 := by
  have h := missing_file_name argsSmall w1
  exact ⟨h.2.1, h.2.2.1⟩

/-- Counterexample to claim C5 as stated: with the unrecognized selector
`"SAC"` (and an otherwise complete argument dictionary), `main` does not
fail with a configuration error at startup — it creates and seeds the
environment and writes the result-file header first, and the failure is
an unbound-local read of `policy`. -/
theorem unknown_policy_cex :
    (main all_keys argsSAC w1).2 = .error (.unboundLocal "policy")
    ∧ Ev.envCreate ∈ (main all_keys argsSAC w1).1
    ∧ Ev.envSeed ∈ (main all_keys argsSAC w1).1
    ∧ Ev.writeHeader ∈ (main all_keys argsSAC w1).1 :=
  ⟨rfl, by decide, by decide, by decide⟩

/-- Claim C5 as amended: for every policy-variant selector other than
`TD3`, `OurDDPG` and `DDPG`, `main` fails fatally — with an
unbound-local error at the first read of the never-assigned `policy`
variable — before any training-environment reset or step and before any
train call, but only after the environment has been created and seeded. -/
theorem unknown_policy_unbound (args : Args) (w : World)
    (h1 : args.policy ≠ "TD3") (h2 : args.policy ≠ "OurDDPG")
    (h3 : args.policy ≠ "DDPG") :
    (main all_keys args w).2 = .error (.unboundLocal "policy")
    ∧ Ev.envCreate ∈ (main all_keys args w).1
    ∧ Ev.envSeed ∈ (main all_keys args w).1
    ∧ Ev.envReset ∉ (main all_keys args w).1
    ∧ (∀ t, Ev.trainCall t ∉ (main all_keys args w).1)
    ∧ (∀ t, Ev.envStep t ∉ (main all_keys args w).1) := by
  have e1 : firstMissing all_keys ["policy", "env", "seed", "dest_res_path"] = none := rfl
  have e2 : firstMissing all_keys ["discount", "tau", "policy"] = none := rfl
  have e3 : firstMissing all_keys header_keys = none := rfl
  have hb : buildPolicyKwargs args w.stateDim w.actionDim w.actionSpaceHigh0 = none := by
    simp [buildPolicyKwargs, h1, h2, h3]
  by_cases c1 : w.resDirExists <;> by_cases c2 : args.save_model <;>
    by_cases c3 : w.modelDirExists <;> by_cases c4 : w.resFileExists <;>
      by_cases c5 : args.load_model = "" <;>
        simp +decide [main, mainTail, mainLoad, mainFinal, e1, e2, e3, hb, h1,
          c1, c2, c3, c4, c5]

/-- Witness for the amended C5 at a concrete input: selector `"PPO"`. -/
theorem unknown_policy_witness :
    (main all_keys argsPPO w1).2 = .error (.unboundLocal "policy")
    ∧ Ev.envCreate ∈ (main all_keys argsPPO w1).1
    ∧ Ev.envReset ∉ (main all_keys argsPPO w1).1 := by
  have h := unknown_policy_unbound argsPPO w1 (by decide) (by decide) (by decide)
  exact ⟨h.1, h.2.1, h.2.2.2.1⟩

/-- Counterexample to claim C1 as stated: with the result file already
existing at startup, `main` does not signal a fatal error — the run
completes (`.ok`), training happens, the header write is skipped, and
the evaluation rows (initial plus two ticks) are appended. -/
theorem result_file_exists_cex :
    (main all_keys argsSmall wExist).2 = .ok (runLoop argsSmall wExist)
    ∧ Ev.writeHeader ∉ (main all_keys argsSmall wExist).1
    ∧ Ev.trainCall 0 ∈ (main all_keys argsSmall wExist).1
    ∧ (runLoop argsSmall wExist).rows.length = 3 :=
  ⟨rfl, by decide, by decide, by decide⟩

/-- Claim C1 as amended: if the result CSV file already exists when
`main` starts, no error is signalled — the header/hyperparameter write
is skipped and the run proceeds, appending the initial evaluation row
and one row per evaluation tick to the pre-existing file. -/
theorem result_file_exists_appends (args : Args) (w : World)
    (hex : w.resFileExists = true)
    (hp : args.policy = "TD3" ∨ args.policy = "OurDDPG" ∨ args.policy = "DDPG") :
    Ev.writeHeader ∉ (main all_keys args w).1
    ∧ (main all_keys args w).2 = .ok (runLoop args w)
    ∧ (runLoop args w).rows = rowsAfter args w args.max_timesteps := by
  have e1 : firstMissing all_keys ["policy", "env", "seed", "dest_res_path"] = none := rfl
  have e2 : firstMissing all_keys ["discount", "tau", "policy"] = none := rfl
  have e4 : firstMissing all_keys ["policy_noise", "noise_clip", "policy_freq"]
      = none := rfl
  have hb : (buildPolicyKwargs args w.stateDim w.actionDim w.actionSpaceHigh0).isSome
      = true := by
    rcases hp with h | h | h <;> simp [buildPolicyKwargs, h]
  obtain ⟨pk, hpk⟩ := Option.isSome_iff_exists.mp hb
  have hrows : (runLoop args w).rows = rowsAfter args w args.max_timesteps := by
    rw [runLoop_spec]
    rfl
  refine ⟨?_, ?_, hrows⟩ <;>
    · by_cases c1 : w.resDirExists <;> by_cases c2 : args.save_model <;>
      by_cases c3 : w.modelDirExists <;> by_cases c5 : args.load_model = "" <;>
        simp +decide [main, mainTail, mainLoad, mainFinal, e1, e2, e4, hex, hpk,
          writeHeader_not_mem_loopEvents, c1, c2, c3, c5]

/-- Witness for the amended C1 at a concrete input. -/
theorem result_file_exists_witness :
    Ev.writeHeader ∉ (main all_keys argsMid wExist).1
    ∧ (main all_keys argsMid wExist).2 = .ok (runLoop argsMid wExist) := by
  have h := result_file_exists_appends argsMid wExist rfl (Or.inl rfl)
  exact ⟨h.1, h.2.1⟩

end TD3Main
